import Mathlib

/-!
Shallow embedding of the deployment-guide cache of `src/index.ts`
(the `ensureCacheDir`, `getDefaultDeploymentGuide` and
`getCachedDeploymentGuide` functions).

The effectful TypeScript code is modelled by explicit state passing: an
`Env` records the outcome of every I/O interaction a single invocation can
perform (directory `access`/`mkdir`, cache-file `readFile` + `JSON.parse`,
`Date` parsing, network `fetch`, cache-file `writeFile`, and the current
clock), and `getCachedDeploymentGuide` returns a `CallResult` holding the
value returned (or the propagated exception), the number of fetch / write /
mkdir attempts, and the cache-file content after the call.
-/

/-- The persisted cache record, as declared by the TypeScript return type
`{ content: string; cached_at?: string; source: string }`.  `cached_at` is
optional there, hence `Option String` here. -/
structure CacheRecord where
  content : String
  cached_at : Option String
  source : String
deriving DecidableEq, Repr

/-- The observable content of the cache file for `readFile` + `JSON.parse`:
either `JSON.parse` throws (`corrupt`) or it yields a record. -/
inductive CacheFile where
  | corrupt : CacheFile
  | record : CacheRecord → CacheFile
deriving DecidableEq, Repr

/-- One invocation's environment: the outcome of each I/O interaction.
`readResult = none` means `readFile` threw (file absent or unreadable).
`dateParse s = none` means `new Date(s).getTime()` is NaN.
`fetchResult = none` means the fetch threw (transport error); otherwise it
carries `response.ok` and the body text.  `now` is `Date.now()` in
milliseconds and `nowIso` is `new Date().toISOString()`. -/
structure Env where
  accessOk : Bool
  mkdirOk : Bool
  readResult : Option CacheFile
  dateParse : String → Option Int
  fetchResult : Option (Bool × String)
  writeOk : Bool
  now : Int
  nowIso : String

/-- What one call of `getCachedDeploymentGuide` produced: the returned
record (or the exception that escaped, modelled by `Except.error ()`),
how many network fetches, cache-file write attempts and mkdir attempts
happened, and the cache-file content after the call. -/
structure CallResult where
  result : Except Unit CacheRecord
  fetches : Nat
  writeAttempts : Nat
  mkdirAttempts : Nat
  finalCache : Option CacheFile

/-- `ensureCacheDir` of `src/index.ts`: `access(CACHE_DIR)`, and on failure
`mkdir(CACHE_DIR, { recursive: true })`.  A failing mkdir rejects; the
second component counts mkdir attempts. -/
def ensureCacheDir (env : Env) : Except Unit Unit × Nat :=
  if env.accessOk then (Except.ok (), 0)
  else if env.mkdirOk then (Except.ok (), 1)
  else (Except.error (), 1)

/-- The 24-hour freshness window of `src/index.ts` line 73, in
milliseconds. -/
def FRESHNESS_WINDOW_MS : Int := 24 * 60 * 60 * 1000

/-- `new Date(cacheData.cached_at).getTime()`: a missing `cached_at`
(`new Date(undefined)`) and an unparsable one both give NaN (`none`). -/
def parseCachedTime (env : Env) (cached_at : Option String) : Option Int :=
  match cached_at with
  | none => none
  | some s => env.dateParse s

/-- The freshness test `now.getTime() - cachedTime.getTime() < 24*60*60*1000`
of `src/index.ts` line 73.  A NaN difference compares false. -/
def isFresh (env : Env) (cached_at : Option String) : Bool :=
  match parseCachedTime env cached_at with
  | none => false
  | some t => env.now - t < FRESHNESS_WINDOW_MS

/-- The first try-block of `getCachedDeploymentGuide` (lines 67-77): read
the cache file, parse it, and return the parsed record iff it is fresh.
Any read/parse failure is swallowed and yields `none` (cache miss). -/
def freshHit (env : Env) : Option CacheRecord :=
  match env.readResult with
  | some (CacheFile.record r) =>
      if isFresh env r.cached_at then some r else none
  | _ => none

/-- `getDefaultDeploymentGuide` of `src/index.ts` lines 25-58: the
statically bundled guide body, templated on the upper-cased service type. -/
def getDefaultDeploymentGuide (serviceType : String) : String :=
  "# " ++ serviceType.toUpper ++ " Service Deployment Guide\n\n## Prerequisites\n- Public GitHub repository\n- Listen on PORT environment variable\n- Include dependency files (requirements.txt/package.json)\n\n## Deployment Steps\n1. Prepare a Dockerfile\n2. Configure environment variables\n3. Set AI_BUILDER_TOKEN\n4. Deploy to target platform\n\n## Authentication\n- Use Bearer Token authentication\n- Read AI_BUILDER_TOKEN from environment variables\n- Include token in Authorization header\n\n## Environment Example\n```bash\nAI_BUILDER_TOKEN=your_token_here\nDEPLOYMENT_TARGET=production\nPORT=8000\n```\n\n## Code Example\n```python\nimport os\n\ntoken = os.getenv(\"AI_BUILDER_TOKEN\")\nheaders = \x7b\"Authorization\": f\"Bearer \x7btoken\x7d\"\x7d\n```"

/-- `getCachedDeploymentGuide` of `src/index.ts` lines 60-106, step by step:
`await ensureCacheDir()` (outside any try: its failure propagates); then
the cached-read try-block; then the fetch try-block, where a 2xx response
builds a `remote` record, attempts one cache write (write failure is
caught and only logged), and returns the record; any fetch failure or
non-2xx response falls through to the `default` record, which is returned
without any write. -/
def getCachedDeploymentGuide (env : Env) : CallResult :=
  match ensureCacheDir env with
  | (Except.error _, m) =>
      ⟨Except.error (), 0, 0, m, env.readResult⟩
  | (Except.ok _, m) =>
      match freshHit env with
      | some r => ⟨Except.ok r, 0, 0, m, env.readResult⟩
      | none =>
          match env.fetchResult with
          | some (true, body) =>
              let newRec : CacheRecord := ⟨body, some env.nowIso, "remote"⟩
              ⟨Except.ok newRec, 1, 1, m,
                if env.writeOk then some (CacheFile.record newRec)
                else env.readResult⟩
          | _ =>
              ⟨Except.ok
                  ⟨getDefaultDeploymentGuide "fastapi", some env.nowIso,
                    "default"⟩,
                1, 0, m, env.readResult⟩

/-- An immediately repeated invocation: same clock, parser and I/O
outcomes, but reading the cache-file state the first call left behind. -/
def rerunEnv (env : Env) (f : Option CacheFile) : Env :=
  ⟨env.accessOk, env.mkdirOk, f, env.dateParse, env.fetchResult,
    env.writeOk, env.now, env.nowIso⟩

/-- A concrete always-failing date parser, for witnesses. -/
def noParse : String → Option Int := fun _ => none

/-- A concrete environment for witnesses in which the cache directory is
absent and cannot be created. -/
def envNoDir : Env :=
  ⟨false, false, none, noParse, some (true, "NEW"), true, 0, "T0"⟩

/-- C1 counterexample: with the cache directory absent (`access` fails)
and `mkdir` failing too, `getCachedDeploymentGuide` does raise to its
caller and returns no record, because `await ensureCacheDir()` at line 65
sits outside every try/catch of the function. -/
theorem c1_raises_counterexample :
    (getCachedDeploymentGuide envNoDir).result = Except.error () ∧
      ¬ ∃ r, (getCachedDeploymentGuide envNoDir).result = Except.ok r := by
  refine ⟨rfl, ?_⟩
  rintro ⟨r, h⟩
  simp [getCachedDeploymentGuide, envNoDir, ensureCacheDir] at h

/-- C1 (amended): provided ensuring the cache directory succeeds (the
directory exists, or its creation succeeds), `getCachedDeploymentGuide`
never raises: for every starting cache state and every outcome of the
network fetch and the disk write it returns some record. -/
theorem c1_never_raises (env : Env)
    (hdir : env.accessOk = true ∨ env.mkdirOk = true) :
    ∃ r, (getCachedDeploymentGuide env).result = Except.ok r := by
  have hensure : ∃ m, ensureCacheDir env = (Except.ok (), m) := by
    rcases hdir with h | h
    · exact ⟨0, by simp [ensureCacheDir, h]⟩
    · cases hacc : env.accessOk
      · exact ⟨1, by simp [ensureCacheDir, hacc, h]⟩
      · exact ⟨0, by simp [ensureCacheDir, hacc]⟩
  obtain ⟨m, hm⟩ := hensure
  unfold getCachedDeploymentGuide
  rw [hm]
  cases hhit : freshHit env with
  | some r => exact ⟨r, rfl⟩
  | none =>
      cases hfetch : env.fetchResult with
      | none => exact ⟨_, rfl⟩
      | some p =>
          obtain ⟨ok, body⟩ := p
          cases ok
          · exact ⟨_, rfl⟩
          · exact ⟨_, rfl⟩

/-- Witness for C1 (amended) at a concrete environment. -/
theorem c1_never_raises_witness :
    ∃ r,
      (getCachedDeploymentGuide
        ⟨true, false, none, noParse, none, false, 0, "T0"⟩).result =
        Except.ok r :=
  c1_never_raises ⟨true, false, none, noParse, none, false, 0, "T0"⟩
    (Or.inl rfl)

/-- Helper: when the cache directory exists, `ensureCacheDir` succeeds
without any mkdir attempt. -/
theorem ensureCacheDir_of_accessOk (env : Env) (h : env.accessOk = true) :
    ensureCacheDir env = (Except.ok (), 0) := by
  simp [ensureCacheDir, h]

/-- Helper: a read-and-fresh record is the hit of the first try-block. -/
theorem freshHit_eq_some (env : Env) (r : CacheRecord)
    (hread : env.readResult = some (CacheFile.record r))
    (hfresh : isFresh env r.cached_at = true) :
    freshHit env = some r := by
  simp [freshHit, hread, hfresh]

/-- C2: whenever a persisted record is successfully read and parsed and is
fresh (`now - cached_at < 24h`), the call returns that record unchanged
(same content, cached_at and source), performs no network call, and leaves
the cache file as it was.  `accessOk` holds because a readable cache file
lives inside the cache directory, so the directory exists. -/
theorem c2_fresh_cache_returned_unchanged (env : Env) (r : CacheRecord)
    (hacc : env.accessOk = true)
    (hread : env.readResult = some (CacheFile.record r))
    (hfresh : isFresh env r.cached_at = true) :
    (getCachedDeploymentGuide env).result = Except.ok r ∧
      (getCachedDeploymentGuide env).fetches = 0 ∧
      (getCachedDeploymentGuide env).finalCache = env.readResult := by
  unfold getCachedDeploymentGuide
  rw [ensureCacheDir_of_accessOk env hacc, freshHit_eq_some env r hread hfresh]
  exact ⟨rfl, rfl, rfl⟩

/-- A concrete fresh record for witnesses. -/
def freshRec : CacheRecord := ⟨"CACHED", some "t0", "remote"⟩

/-- A concrete date parser mapping the string "t0" to time 0, for
witnesses. -/
def parseT0 : String → Option Int := fun s => if s = "t0" then some 0 else none

/-- A concrete environment holding a fresh cached record (cached at time 0,
clock at 1000 ms), for witnesses. -/
def envFresh : Env :=
  ⟨true, true, some (CacheFile.record freshRec), parseT0,
    some (true, "NEW"), true, 1000, "T1"⟩

/-- Witness for C2 at the concrete fresh-cache environment. -/
theorem c2_fresh_cache_returned_unchanged_witness :
    (getCachedDeploymentGuide envFresh).result = Except.ok freshRec ∧
      (getCachedDeploymentGuide envFresh).fetches = 0 ∧
      (getCachedDeploymentGuide envFresh).finalCache = envFresh.readResult :=
  c2_fresh_cache_returned_unchanged envFresh freshRec rfl rfl (by decide)

/-- C3: with no fresh record available and the fetch failing (transport
error or non-2xx response), the returned record is the fallback: content
is the statically bundled guide body, source is "default", cached_at is
the current timestamp. -/
theorem c3_fetch_failure_falls_back (env : Env)
    (hdir : env.accessOk = true ∨ env.mkdirOk = true)
    (hmiss : freshHit env = none)
    (hfail : env.fetchResult = none ∨
      ∃ body, env.fetchResult = some (false, body)) :
    (getCachedDeploymentGuide env).result =
      Except.ok
        ⟨getDefaultDeploymentGuide "fastapi", some env.nowIso, "default"⟩ := by
  have hensure : ∃ m, ensureCacheDir env = (Except.ok (), m) := by
    rcases hdir with h | h
    · exact ⟨0, by simp [ensureCacheDir, h]⟩
    · cases hacc : env.accessOk
      · exact ⟨1, by simp [ensureCacheDir, hacc, h]⟩
      · exact ⟨0, by simp [ensureCacheDir, hacc]⟩
  obtain ⟨m, hm⟩ := hensure
  unfold getCachedDeploymentGuide
  rw [hm, hmiss]
  rcases hfail with h | ⟨body, h⟩ <;> rw [h]

/-- A concrete environment with an empty cache and a fetch that fails with
a transport error, for witnesses. -/
def envFetchRefused : Env :=
  ⟨true, true, none, noParse, none, true, 1000, "T1"⟩

/-- Witness for C3 at a concrete connection-refused environment. -/
theorem c3_fetch_failure_falls_back_witness :
    (getCachedDeploymentGuide envFetchRefused).result =
      Except.ok
        ⟨getDefaultDeploymentGuide "fastapi", some envFetchRefused.nowIso,
          "default"⟩ :=
  c3_fetch_failure_falls_back envFetchRefused (Or.inl rfl) rfl (Or.inl rfl)

/-- Helper: ensure-dir success extracted from an accessOk-or-mkdirOk
hypothesis. -/
theorem ensureCacheDir_ok (env : Env)
    (hdir : env.accessOk = true ∨ env.mkdirOk = true) :
    ∃ m, ensureCacheDir env = (Except.ok (), m) := by
  rcases hdir with h | h
  · exact ⟨0, by simp [ensureCacheDir, h]⟩
  · cases hacc : env.accessOk
    · exact ⟨1, by simp [ensureCacheDir, hacc, h]⟩
    · exact ⟨0, by simp [ensureCacheDir, hacc]⟩

/-- C4: with the cache file holding a stale remote record with content
"OLD" (its cached_at parses to a time at least 24h before now) and the
network fetch succeeding with body "NEW" and the disk write succeeding,
the call returns the record with content "NEW", source "remote" and the
current timestamp, and the cache file is overwritten wholesale with
exactly this record. -/
theorem c4_stale_refresh_overwrites (env : Env) (s : String) (t : Int)
    (hacc : env.accessOk = true)
    (hread : env.readResult = some (CacheFile.record ⟨"OLD", some s, "remote"⟩))
    (hparse : env.dateParse s = some t)
    (hstale : FRESHNESS_WINDOW_MS ≤ env.now - t)
    (hfetch : env.fetchResult = some (true, "NEW"))
    (hwrite : env.writeOk = true) :
    (getCachedDeploymentGuide env).result =
        Except.ok ⟨"NEW", some env.nowIso, "remote"⟩ ∧
      (getCachedDeploymentGuide env).finalCache =
        some (CacheFile.record ⟨"NEW", some env.nowIso, "remote"⟩) ∧
      (getCachedDeploymentGuide env).writeAttempts = 1 := by
  have hmiss : freshHit env = none := by
    have hnotfresh : isFresh env (some s) = false := by
      simp only [isFresh, parseCachedTime, hparse, decide_eq_false_iff_not,
        not_lt]
      exact hstale
    simp [freshHit, hread, hnotfresh]
  unfold getCachedDeploymentGuide
  rw [ensureCacheDir_of_accessOk env hacc, hmiss, hfetch]
  simp [hwrite]

/-- A concrete stale-cache environment: the cached record is 25 hours old,
the fetch returns "NEW", the write succeeds. -/
def envStale : Env :=
  ⟨true, true, some (CacheFile.record ⟨"OLD", some "t0", "remote"⟩), parseT0,
    some (true, "NEW"), true, 25 * 60 * 60 * 1000, "T25"⟩

/-- Witness for C4 at the concrete 25-hour-old-cache environment. -/
theorem c4_stale_refresh_overwrites_witness :
    (getCachedDeploymentGuide envStale).result =
        Except.ok ⟨"NEW", some envStale.nowIso, "remote"⟩ ∧
      (getCachedDeploymentGuide envStale).finalCache =
        some (CacheFile.record ⟨"NEW", some envStale.nowIso, "remote"⟩) ∧
      (getCachedDeploymentGuide envStale).writeAttempts = 1 :=
  c4_stale_refresh_overwrites envStale "t0" 0 rfl rfl rfl (by decide) rfl rfl

/-- C5 counterexample: in a concrete state where the fetch fails and the
fallback record is built and returned, no disk write of that record is
attempted at all — `writeAttempts` is 0 and the cache file is untouched —
contradicting the claim that persistence of the fallback is attempted.
The fallback return at lines 101-105 of `src/index.ts` has no `writeFile`
call. -/
theorem c5_no_fallback_write_counterexample :
    (getCachedDeploymentGuide envFetchRefused).result =
        Except.ok
          ⟨getDefaultDeploymentGuide "fastapi", some envFetchRefused.nowIso,
            "default"⟩ ∧
      (getCachedDeploymentGuide envFetchRefused).writeAttempts = 0 := by
  exact ⟨rfl, rfl⟩

/-- C5 (amended): when the fetch fails and the fallback record is built,
no persistence of that record is attempted (zero disk writes on this
path, the cache file is left unchanged), and the returned record is the
fallback regardless of the disk-write outcome. -/
theorem c5_fallback_never_persisted (env : Env)
    (hdir : env.accessOk = true ∨ env.mkdirOk = true)
    (hmiss : freshHit env = none)
    (hfail : env.fetchResult = none ∨
      ∃ body, env.fetchResult = some (false, body)) :
    (getCachedDeploymentGuide env).writeAttempts = 0 ∧
      (getCachedDeploymentGuide env).finalCache = env.readResult ∧
      (getCachedDeploymentGuide env).result =
        Except.ok
          ⟨getDefaultDeploymentGuide "fastapi", some env.nowIso,
            "default"⟩ := by
  obtain ⟨m, hm⟩ := ensureCacheDir_ok env hdir
  unfold getCachedDeploymentGuide
  rw [hm, hmiss]
  rcases hfail with h | ⟨body, h⟩ <;> rw [h] <;> exact ⟨rfl, rfl, rfl⟩

/-- A concrete fetch-failing environment whose disk write would also fail,
for the C5 witness. -/
def envFetchRefusedNoWrite : Env :=
  ⟨true, true, none, noParse, none, false, 1000, "T1"⟩

/-- Witness for C5 (amended) at a concrete environment where the write
would fail, showing the returned record is the fallback anyway. -/
theorem c5_fallback_never_persisted_witness :
    (getCachedDeploymentGuide envFetchRefusedNoWrite).writeAttempts = 0 ∧
      (getCachedDeploymentGuide envFetchRefusedNoWrite).finalCache =
        envFetchRefusedNoWrite.readResult ∧
      (getCachedDeploymentGuide envFetchRefusedNoWrite).result =
        Except.ok
          ⟨getDefaultDeploymentGuide "fastapi",
            some envFetchRefusedNoWrite.nowIso, "default"⟩ :=
  c5_fallback_never_persisted envFetchRefusedNoWrite (Or.inl rfl) rfl
    (Or.inl rfl)

/-- C6: for every starting state and all I/O outcomes, one invocation
performs at most one network fetch, at most one cache-file write attempt,
and at most one mkdir attempt; never more. -/
theorem c6_at_most_one_fetch_and_write (env : Env) :
    (getCachedDeploymentGuide env).fetches ≤ 1 ∧
      (getCachedDeploymentGuide env).writeAttempts ≤ 1 ∧
      (getCachedDeploymentGuide env).mkdirAttempts ≤ 1 := by
  unfold getCachedDeploymentGuide ensureCacheDir
  cases env.accessOk <;> cases env.mkdirOk <;>
    cases freshHit env <;>
    rcases hfetch : env.fetchResult with _ | ⟨_ | _, body⟩ <;>
    simp [hfetch]

/-- Helper: the fresh-cache path fully evaluated — a read, parsed and
fresh record short-circuits the call with no fetch, no write and no cache
change. -/
theorem getCachedDeploymentGuide_fresh (env : Env) (r : CacheRecord)
    (hacc : env.accessOk = true)
    (hread : env.readResult = some (CacheFile.record r))
    (hfresh : isFresh env r.cached_at = true) :
    getCachedDeploymentGuide env = ⟨Except.ok r, 0, 0, 0, env.readResult⟩ := by
  unfold getCachedDeploymentGuide
  rw [ensureCacheDir_of_accessOk env hacc, freshHit_eq_some env r hread hfresh]

/-- Helper: on a cache miss, exactly one fetch attempt is made, whatever
its outcome. -/
theorem fetches_eq_one_of_miss (env : Env)
    (hdir : env.accessOk = true ∨ env.mkdirOk = true)
    (hmiss : freshHit env = none) :
    (getCachedDeploymentGuide env).fetches = 1 := by
  obtain ⟨m, hm⟩ := ensureCacheDir_ok env hdir
  unfold getCachedDeploymentGuide
  rw [hm, hmiss]
  rcases hfetch : env.fetchResult with _ | ⟨_ | _, body⟩ <;> rfl

/-- C7: whenever the network fetch succeeds (2xx with some body), the call
returns the record with that body, source "remote" and the current
timestamp, with exactly one write attempted; this holds for every
disk-write outcome, so a failing write neither alters nor blocks the
returned record. -/
theorem c7_fetch_success_returns_remote (env : Env) (body : String)
    (hdir : env.accessOk = true ∨ env.mkdirOk = true)
    (hmiss : freshHit env = none)
    (hfetch : env.fetchResult = some (true, body)) :
    (getCachedDeploymentGuide env).result =
        Except.ok ⟨body, some env.nowIso, "remote"⟩ ∧
      (getCachedDeploymentGuide env).writeAttempts = 1 := by
  obtain ⟨m, hm⟩ := ensureCacheDir_ok env hdir
  unfold getCachedDeploymentGuide
  rw [hm, hmiss, hfetch]
  exact ⟨rfl, rfl⟩

/-- A concrete environment with an empty cache, a successful fetch and a
failing disk write, for the C7 witness. -/
def envFetchOkWriteFail : Env :=
  ⟨true, true, none, noParse, some (true, "NEW"), false, 1000, "T1"⟩

/-- Witness for C7 at a concrete environment whose disk write fails. -/
theorem c7_fetch_success_returns_remote_witness :
    (getCachedDeploymentGuide envFetchOkWriteFail).result =
        Except.ok ⟨"NEW", some envFetchOkWriteFail.nowIso, "remote"⟩ ∧
      (getCachedDeploymentGuide envFetchOkWriteFail).writeAttempts = 1 :=
  c7_fetch_success_returns_remote envFetchOkWriteFail "NEW" (Or.inl rfl) rfl
    rfl

/-- C8: an absent or corrupt (unparsable) cache file is treated as a cache
miss — the call still returns a record — and triggers exactly one network
fetch attempt. -/
theorem c8_missing_or_corrupt_is_miss (env : Env)
    (hdir : env.accessOk = true ∨ env.mkdirOk = true)
    (hread : env.readResult = none ∨
      env.readResult = some CacheFile.corrupt) :
    (getCachedDeploymentGuide env).fetches = 1 ∧
      ∃ r, (getCachedDeploymentGuide env).result = Except.ok r := by
  have hmiss : freshHit env = none := by
    rcases hread with h | h <;> simp [freshHit, h]
  refine ⟨fetches_eq_one_of_miss env hdir hmiss, ?_⟩
  obtain ⟨m, hm⟩ := ensureCacheDir_ok env hdir
  unfold getCachedDeploymentGuide
  rw [hm, hmiss]
  rcases hfetch : env.fetchResult with _ | ⟨_ | _, body⟩ <;> exact ⟨_, rfl⟩

/-- A concrete corrupt-cache environment, for the C8 witness. -/
def envCorrupt : Env :=
  ⟨true, true, some CacheFile.corrupt, noParse, some (true, "NEW"), true,
    1000, "T1"⟩

/-- Witness for C8 at a concrete corrupt-cache environment. -/
theorem c8_missing_or_corrupt_is_miss_witness :
    (getCachedDeploymentGuide envCorrupt).fetches = 1 ∧
      ∃ r, (getCachedDeploymentGuide envCorrupt).result = Except.ok r :=
  c8_missing_or_corrupt_is_miss envCorrupt (Or.inl rfl) (Or.inr rfl)

/-- C9: with a fresh cache record, two immediately successive calls (the
second reading the cache-file state the first left behind, under the same
clock) produce the same record, identical in content, cached_at and
source. -/
theorem c9_idempotent_on_fresh_cache (env : Env) (r : CacheRecord)
    (hacc : env.accessOk = true)
    (hread : env.readResult = some (CacheFile.record r))
    (hfresh : isFresh env r.cached_at = true) :
    (getCachedDeploymentGuide env).result = Except.ok r ∧
      (getCachedDeploymentGuide
        (rerunEnv env (getCachedDeploymentGuide env).finalCache)).result =
        Except.ok r := by
  have h1 := getCachedDeploymentGuide_fresh env r hacc hread hfresh
  have henv : rerunEnv env (getCachedDeploymentGuide env).finalCache = env := by
    rw [h1]
    rfl
  rw [henv, h1]
  exact ⟨rfl, rfl⟩

/-- Witness for C9 at the concrete fresh-cache environment. -/
theorem c9_idempotent_on_fresh_cache_witness :
    (getCachedDeploymentGuide envFresh).result = Except.ok freshRec ∧
      (getCachedDeploymentGuide
        (rerunEnv envFresh
          (getCachedDeploymentGuide envFresh).finalCache)).result =
        Except.ok freshRec :=
  c9_idempotent_on_fresh_cache envFresh freshRec rfl rfl (by decide)

/-- C10: for a read and parsed record whose `cached_at` is missing or does
not parse as a timestamp, the freshness comparison is false (a NaN
difference is not less than 24h), so the record is treated as a miss and
exactly one fetch is made; whereas a `cached_at` parsing to a future time
gives a negative difference, so the record counts as fresh and is returned
with no fetch. -/
theorem c10_nan_is_miss_future_is_fresh (env : Env) (r : CacheRecord)
    (hacc : env.accessOk = true)
    (hread : env.readResult = some (CacheFile.record r)) :
    (parseCachedTime env r.cached_at = none →
      (getCachedDeploymentGuide env).fetches = 1) ∧
      (∀ t, parseCachedTime env r.cached_at = some t → env.now < t →
        (getCachedDeploymentGuide env).result = Except.ok r ∧
          (getCachedDeploymentGuide env).fetches = 0) := by
  constructor
  · intro hnan
    have hmiss : freshHit env = none := by
      simp [freshHit, hread, isFresh, hnan]
    exact fetches_eq_one_of_miss env (Or.inl hacc) hmiss
  · intro t hparse hfuture
    have hfresh : isFresh env r.cached_at = true := by
      simp only [isFresh, hparse, decide_eq_true_eq, FRESHNESS_WINDOW_MS]
      omega
    rw [getCachedDeploymentGuide_fresh env r hacc hread hfresh]
    exact ⟨rfl, rfl⟩

/-- A concrete environment whose cached record has no cached_at field, for
the C10 witness. -/
def envNoDate : Env :=
  ⟨true, true, some (CacheFile.record ⟨"X", none, "remote"⟩), noParse,
    some (true, "NEW"), true, 1000, "T1"⟩

/-- A record whose cached_at will parse to a future time, for the C10
witness. -/
def futureRec : CacheRecord := ⟨"X", some "tf", "remote"⟩

/-- A concrete date parser mapping "tf" to time 5000, for the C10
witness. -/
def parseTf : String → Option Int :=
  fun s => if s = "tf" then some 5000 else none

/-- A concrete environment whose cached record is stamped 4 seconds in the
future of the current clock (1000 ms), for the C10 witness. -/
def envFuture : Env :=
  ⟨true, true, some (CacheFile.record futureRec), parseTf,
    some (true, "NEW"), true, 1000, "T1"⟩

/-- Witness for C10: the missing-cached_at record triggers one fetch, and
the future-stamped record is served fresh with no fetch. -/
theorem c10_nan_is_miss_future_is_fresh_witness :
    (getCachedDeploymentGuide envNoDate).fetches = 1 ∧
      ((getCachedDeploymentGuide envFuture).result = Except.ok futureRec ∧
        (getCachedDeploymentGuide envFuture).fetches = 0) :=
  ⟨(c10_nan_is_miss_future_is_fresh envNoDate ⟨"X", none, "remote"⟩ rfl
      rfl).1 rfl,
    (c10_nan_is_miss_future_is_fresh envFuture futureRec rfl rfl).2 5000
      (by decide) (by decide)⟩
